import Mathlib

/-!
Verification of the kamera camera-frame acquisition layer.

The definitions below shallowly embed the backend code of the repository:
the Linux V4L2 backend (src/linux_v4l2/mod.rs), the Windows Media
Foundation backend (src/win_mf/camera.rs) and the macOS AVFoundation
backend (src/mac_avf/camera.rs).  External collaborators (the v4l crate,
Media Foundation, AVFoundation, the ffimage/image pixel crates) are
represented by explicit parameters (device lists, decoder functions,
input constructors); panics in the Rust code are represented by explicit
panic constructors of result types.
-/

namespace Kamera

/-- The cross-platform device descriptor (src/camera.rs, `CameraDevice`). -/
structure CameraDevice where
  id : String
  name : String
deriving DecidableEq

/-! ## Linux V4L2 backend (src/linux_v4l2/mod.rs) -/

/-- A v4l device node as seen by enumeration: a path and an optional
human-readable name (external v4l crate, `v4l::context::Node`). -/
structure Node where
  path : String
  name : Option String
deriving DecidableEq

/-- The Linux backend camera state: the device path and name recorded at
construction, and the mmap stream, present exactly while started
(`stream: RwLock<Option<Stream>>`).  The stream itself is opaque native
state, modelled by `Unit`. -/
structure LinuxCamera where
  device_path : String
  device_name : Option String
  stream : Option Unit
deriving DecidableEq

/-- `Camera::from_node`: opens the node's device and leaves the stream
unset (idle). -/
def from_node (n : Node) : LinuxCamera :=
  { device_path := n.path, device_name := n.name, stream := none }

/-- `Camera::start` on Linux: creates the mmap stream only when none is
present (idempotent). -/
def linuxStart (c : LinuxCamera) : LinuxCamera :=
  if c.stream.isNone then { c with stream := some () } else c

/-- `Camera::stop` on Linux: takes the stream out, dropping it. -/
def linuxStop (c : LinuxCamera) : LinuxCamera :=
  { c with stream := none }

/-- `Camera::new_default_device` on Linux: takes the first enumerated
node and `unwrap`s, so an empty enumeration panics (`Except.error`
carries the panic message). -/
def linuxNewDefaultDevice (nodes : List Node) : Except String LinuxCamera :=
  match nodes.head? with
  | some n => .ok (from_node n)
  | none => .error "called Option.unwrap on a None value"

/-- `Camera::set_device` on Linux: same id is a no-op success; a target
found among enumerated nodes replaces the whole camera and then calls
`start` unconditionally; an unresolvable target calls `stop` and
returns false. -/
def linuxSetDevice (nodes : List Node) (c : LinuxCamera) (target : CameraDevice) :
    Bool × LinuxCamera :=
  if target.id = c.device_path then (true, c)
  else
    match nodes.find? (fun n => n.path == target.id) with
    | some n => (true, linuxStart (from_node n))
    | none => (false, linuxStop c)

/-! ### Pixel conversion (src/linux_v4l2/mod.rs, `wait_for_frame` and the
`yuyv_to_rgb32` / `mjpg_to_rgb32` helpers) -/

/-- Clamp an integer into a byte, as the colorspace conversion does. -/
def clamp8 (x : Int) : Nat := (max 0 (min 255 x)).toNat

/-- Modelled from the spec: the fixed YUV to RGB matrix of the external
ffimage colorspace collaborator (the crate is not part of this
repository); standard BT.601 integer matrix with floor shifts. -/
def yuvToRgb (y u v : Nat) : Nat × Nat × Nat :=
  let c : Int := (y : Int) - 16
  let d : Int := (u : Int) - 128
  let e : Int := (v : Int) - 128
  (clamp8 (Int.fdiv (298 * c + 409 * e + 128) 256),
   clamp8 (Int.fdiv (298 * c - 100 * d - 208 * e + 128) 256),
   clamp8 (Int.fdiv (298 * c + 516 * d + 128) 256))

/-- Modelled from the spec: nearest-chroma upsampling of one pixel of a
packed YUYV (4:2:2) buffer, then the fixed matrix, producing one BGRA
pixel with opaque alpha (the byte-level transform is delegated to the
external ffimage collaborator). -/
def yuyvPixel (buf : List Nat) (i : Nat) : List Nat :=
  let base := 4 * (i / 2)
  let y := buf.getD (base + (if i % 2 = 0 then 0 else 2)) 0
  let u := buf.getD (base + 1) 0
  let v := buf.getD (base + 3) 0
  let rgb := yuvToRgb y u v
  [rgb.2.2, rgb.2.1, rgb.1, 255]

/-- The first `n` converted BGRA pixels, concatenated in pixel order. -/
def yuyvBytes (buf : List Nat) : Nat → List Nat
  | 0 => []
  | n + 1 => yuyvBytes buf n ++ yuyvPixel buf n
/-- `yuyv_to_rgb32`: converts a packed YUYV buffer of a `w` by `h` image
into `w * h` BGRA pixels (the output buffer is allocated at `w * h`
pixels and every pixel is written). -/
def yuyv_to_rgb32 (buf : List Nat) (w h : Nat) : List Nat :=
  yuyvBytes buf (w * h)

/-- Outcome of converting one raw buffer. -/
inductive ConvOut
  | ok (data : List Nat)
  | panicked (msg : String)
deriving DecidableEq

/-- The fourcc dispatch inside `Camera::wait_for_frame` on Linux:
`RGB3` copies the buffer unchanged, `YUYV` converts (the ffimage view
constructor is `unwrap`ped, so a wrong-sized buffer panics), `MJPG`
delegates to the external jpeg decoder (`expect` panics when the decode
fails), and any other tag hits `panic!("invalid buffer pixelformat")`. -/
def convertFrame (mjpg : List Nat → Option (List Nat)) (fourcc : String)
    (buf : List Nat) (w h : Nat) : ConvOut :=
  if fourcc = "RGB3" then .ok buf
  else if fourcc = "YUYV" then
    if buf.length = 2 * (w * h) then .ok (yuyv_to_rgb32 buf w h)
    else .panicked "called Option.unwrap on a None value"
  else if fourcc = "MJPG" then
    match mjpg buf with
    | some d => .ok d
    | none => .panicked "mjpg decode failed"
  else .panicked "invalid buffer pixelformat"

/-- The negotiated format the Linux backend reads back from the device
at the top of `wait_for_frame`. -/
structure LinuxFormat where
  width : Nat
  height : Nat
  fourcc : String
deriving DecidableEq

/-- Outcome of one `wait_for_frame` call. -/
inductive WaitOut
  | frame (data : List Nat) (size : Nat × Nat)
  | noFrame
  | panicked (msg : String)
deriving DecidableEq

/-- `Camera::wait_for_frame` on Linux: `self.stream...as_mut().unwrap()`
panics when the stream is absent (camera never started or stopped);
otherwise `stream.next()` yields a buffer (`next = some buf`) or an
error (`next = none`, returning `None`), and a buffer goes through the
fourcc dispatch. -/
def linuxWaitForFrame (fmt : LinuxFormat) (stream : Option Unit)
    (next : Option (List Nat)) (mjpg : List Nat → Option (List Nat)) : WaitOut :=
  match stream with
  | none => .panicked "called Option.unwrap on a None value"
  | some _ =>
    match next with
    | none => .noFrame
    | some buf =>
      match convertFrame mjpg fmt.fourcc buf fmt.width fmt.height with
      | .ok d => .frame d (fmt.width, fmt.height)
      | .panicked m => .panicked m

/-! ### 32-bit word views (`FrameData::data_u32` on all backends)

`slice::align_to::<u32>` splits a byte slice into a possibly non-empty
unaligned prefix, a run of whole 32-bit words, and a remainder suffix.
The split depends on the base address of the slice modulo 4 (`off`) and
its length `n`. -/

/-- Length of the unaligned prefix produced by `align_to::<u32>`. -/
def alignPrefixLen (off n : Nat) : Nat := min n ((4 - off % 4) % 4)

/-- The `(prefix length, word count, suffix length)` split of
`align_to::<u32>` on a slice at base offset `off` with `n` bytes. -/
def alignParts (off n : Nat) : Nat × Nat × Nat :=
  (alignPrefixLen off n, (n - alignPrefixLen off n) / 4,
   (n - alignPrefixLen off n) % 4)

/-- Result of requesting the 32-bit word view. -/
inductive U32View
  | words (count : Nat)
  | assertFailed
deriving DecidableEq

/-- Linux `FrameData::data_u32`: returns the middle words of `align_to`
with no assertion at all; prefix and suffix bytes are silently dropped. -/
def linuxDataU32 (off n : Nat) : U32View :=
  .words (alignParts off n).2.1

/-- Windows `FrameData::data_u32` (and the macOS `Pixels::new` check):
`debug_assert!` that both the prefix and the suffix of `align_to` are
empty, then return the words (modelling a debug build, where the assert
fires). -/
def winDataU32 (off n : Nat) : U32View :=
  if (alignParts off n).1 = 0 ∧ (alignParts off n).2.2 = 0 then
    .words (alignParts off n).2.1
  else .assertFailed

/-! ## Windows Media Foundation backend (src/win_mf/camera.rs)

Samples travel from the capture callback to the consumer through a
`std::sync::mpsc` channel of `Option<IMFSample>`: an unbounded FIFO
queue.  Samples are modelled as `Nat` tokens. -/

/-- A Media Foundation device source as enumerated. -/
structure WinDevice where
  id : String
  name : String
deriving DecidableEq

/-- The Windows backend camera state: device id, the pending contents of
the sample channel (FIFO order), and whether `StartPreview` ran. -/
structure WinCamera where
  deviceId : String
  sampleQueue : List (Option Nat)
  previewing : Bool
deriving DecidableEq

/-- `Camera::new_default_device` on Windows: takes the first enumerated
device; the empty-enumeration branch is `todo!()`, which panics. -/
def winNewDefaultDevice (devices : List WinDevice) : Except String WinCamera :=
  match devices.head? with
  | some d => .ok { deviceId := d.id, sampleQueue := [], previewing := false }
  | none => .error "not yet implemented"

/-- A channel send: the sample callback appends to the FIFO queue. -/
def chanSend (q : List (Option Nat)) (x : Option Nat) : List (Option Nat) :=
  q ++ [x]

/-- `recv_timeout(3 s)` on the sample channel: takes the oldest queued
item; an empty queue models the execution in which no send happens
within the timeout window, so the receive returns nothing. -/
def winRecvTimeout (q : List (Option Nat)) :
    Option (Option Nat) × List (Option Nat) :=
  (q.head?, q.tail)

/-- The sample-obtaining prefix of `Camera::wait_for_frame` on Windows:
`self.sample_rx.recv_timeout(Duration::from_secs(3)).ok().flatten()`,
returning the observed sample (if any) and the remaining queue. -/
def winWaitSample (q : List (Option Nat)) : Option Nat × List (Option Nat) :=
  ((winRecvTimeout q).1.join, (winRecvTimeout q).2)

/-- Post a whole sequence of samples into the channel, oldest first. -/
def postAll (ps : List (Option Nat)) : List (Option Nat) :=
  ps.foldl chanSend []

/-- `Camera::set_device` on Windows: same id is a no-op success; a
resolvable target rebuilds the engine with fresh channels and then
calls `self.start()` unconditionally; an unresolvable target returns
false without touching the camera. -/
def winSetDevice (devices : List WinDevice) (c : WinCamera) (target : CameraDevice) :
    Bool × WinCamera :=
  if target.id = c.deviceId then (true, c)
  else
    match devices.find? (fun d => d.id == target.id) with
    | some d => (true, { deviceId := d.id, sampleQueue := [], previewing := true })
    | none => (false, c)

/-! ## macOS AVFoundation backend (src/mac_avf/camera.rs)

Device inputs are modelled as `Nat` tokens; constructing an input for a
device (`AVCaptureDeviceInput::deviceInputWithDevice_error`) can fail,
modelled by an `Option`-returning constructor parameter. -/

/-- An AVFoundation capture device. -/
structure MacDevice where
  uniqueID : String
  localizedName : String
deriving DecidableEq

/-- The macOS backend camera state: current device, current input, the
inputs attached to the capture session, and whether the session is
running. -/
structure MacCamera where
  device : MacDevice
  input : Nat
  sessionInputs : List Nat
  sessionRunning : Bool
deriving DecidableEq

/-- `Camera::new_default_device` on macOS: requires a default video
device and a successfully constructed input; either failure returns
`None` to the caller.  The fresh session holds the one input and is not
running. -/
def macNewDefaultDevice (defaultDevice : Option MacDevice)
    (mkInput : MacDevice → Option Nat) : Option MacCamera :=
  match defaultDevice with
  | none => none
  | some d =>
    match mkInput d with
    | none => none
    | some i => some { device := d, input := i, sessionInputs := [i], sessionRunning := false }

/-- `Camera::set_device` on macOS: same id is a no-op success.  For a
different id, the target is looked up among the enumerated devices; if
found, a new input is constructed and, only on success, the old input
is removed from the session, the device and input fields are replaced
and the new input is added (the session itself, including its running
state, is kept).  If input construction fails, or the device is not
found, the method returns false with the camera untouched — there is no
stop/teardown on either failure path. -/
def macSetDevice (cam : MacCamera) (devices : List MacDevice)
    (mkInput : MacDevice → Option Nat) (target : CameraDevice) :
    Bool × MacCamera :=
  if target.id = cam.device.uniqueID then (true, cam)
  else
    match devices.find? (fun d => d.uniqueID == target.id) with
    | some newDevice =>
      match mkInput newDevice with
      | some newInput =>
        (true, { device := newDevice, input := newInput,
                 sessionInputs := cam.sessionInputs.erase cam.input ++ [newInput],
                 sessionRunning := cam.sessionRunning })
      | none => (false, cam)
    | none => (false, cam)

/-- The byte length of the locked view built by `Pixels::new` on macOS:
`stride * height` for a non-planar buffer (the whole locked region,
row padding included), and the sum of `plane stride * plane height`
over the planes otherwise. -/
def macPixelsDataLen (isPlanar : Bool) (planes : List (Nat × Nat))
    (stride height : Nat) : Nat :=
  if isPlanar then (planes.map (fun p => p.1 * p.2)).sum
  else stride * height

/-- Modelled from the spec: the macOS FrameSlot post operation (the
`Slot` type and its `wait_for_sample` implementation are not among the
source files; only their caller `Camera::wait_for_frame` is).  Post
swaps the pending slot with the new value, releasing the prior occupant
if a sample was pending; the released count is returned. -/
def specSlotPost (pending : Option Nat) (x : Option Nat) : Option Nat × Nat :=
  (x, if pending.isSome then 1 else 0)

/-- Modelled from the spec: the take step of the macOS FrameSlot wait —
once woken by a post, the waiter atomically takes and clears the
pending value. -/
def specSlotTake (pending : Option Nat) : Option Nat × Option Nat :=
  (pending, none)

/-! ## Theorems -/

/-- Helper: folding channel sends from the empty queue reproduces the
posted sequence in FIFO order. -/
theorem foldl_chanSend (ps : List (Option Nat)) :
    ∀ acc : List (Option Nat), ps.foldl chanSend acc = acc ++ ps := by
  induction ps with
  | nil => intro acc; simp
  | cons p ps ih => intro acc; simp [chanSend, ih]

/-- Helper: each converted YUYV pixel is four bytes. -/
theorem yuyvPixel_length (buf : List Nat) (i : Nat) :
    (yuyvPixel buf i).length = 4 := rfl

/-- Helper: converting `n` YUYV pixels yields `4 * n` bytes. -/
theorem yuyvBytes_length (buf : List Nat) (n : Nat) :
    (yuyvBytes buf n).length = 4 * n := by
  induction n with
  | zero => rfl
  | succ k ih =>
    simp [yuyvBytes, ih, yuyvPixel_length]
    omega

/-- A macOS camera whose session is running, used as a concrete state. -/
def macCamEx : MacCamera :=
  { device := { uniqueID := "cam0", localizedName := "Camera 0" },
    input := 1, sessionInputs := [1], sessionRunning := true }

/-- C10: on the macOS backend, when set_device resolves the target id
among the enumerated devices but constructing the new device input
fails, it returns false and leaves the camera fully unchanged (same
device, same input, same session inputs, same running state). -/
theorem c10_macSetDevice_input_failure_unchanged
    (cam : MacCamera) (devices : List MacDevice) (mkInput : MacDevice → Option Nat)
    (target : CameraDevice) (d : MacDevice)
    (hne : target.id ≠ cam.device.uniqueID)
    (hfind : devices.find? (fun d => d.uniqueID == target.id) = some d)
    (hinput : mkInput d = none) :
    macSetDevice cam devices mkInput target = (false, cam) := by
  simp [macSetDevice, if_neg hne, hfind, hinput]

/-- C10 witness: a concrete unresolved-input switch at a found device. -/
theorem c10_witness :
    macSetDevice macCamEx [{ uniqueID := "camY", localizedName := "Y" }]
      (fun _ => none) { id := "camY", name := "Y" } = (false, macCamEx) :=
  c10_macSetDevice_input_failure_unchanged macCamEx
    [{ uniqueID := "camY", localizedName := "Y" }] (fun _ => none)
    { id := "camY", name := "Y" } { uniqueID := "camY", localizedName := "Y" }
    (by decide) (by decide) rfl

/-- C1 counterexample: on the macOS backend, set_device with a target
id that is neither the current device nor among the enumerated devices
returns false but leaves the camera completely untouched — the session
is still running, nothing is stopped or released, contradicting the
claim that every backend ends idle with the session torn down. -/
theorem c1_counterexample :
    macSetDevice macCamEx [] (fun _ => none) { id := "camX", name := "X" } =
      (false, macCamEx) ∧
    macCamEx.sessionRunning = true := by
  constructor
  · rfl
  · rfl

/-- C1 (amended): on the Linux backend, set_device with an unresolvable
target id stops the current session (the stream is released, the
controller ends idle) and returns false; on the macOS backend the same
call returns false but leaves the camera, its session and its running
state untouched. -/
theorem c1_unresolvable_target
    (nodes : List Node) (c : LinuxCamera) (target : CameraDevice)
    (cam : MacCamera) (devices : List MacDevice) (mkInput : MacDevice → Option Nat)
    (target2 : CameraDevice)
    (h1 : target.id ≠ c.device_path)
    (h2 : nodes.find? (fun n => n.path == target.id) = none)
    (h3 : target2.id ≠ cam.device.uniqueID)
    (h4 : devices.find? (fun d => d.uniqueID == target2.id) = none) :
    linuxSetDevice nodes c target = (false, linuxStop c) ∧
    macSetDevice cam devices mkInput target2 = (false, cam) := by
  constructor
  · simp [linuxSetDevice, if_neg h1, h2]
  · simp [macSetDevice, if_neg h3, h4]

/-- C1 witness: the amended behavior at concrete states. -/
theorem c1_witness :
    linuxSetDevice [] { device_path := "/dev/video0", device_name := none, stream := some () }
        { id := "/dev/video9", name := "gone" } =
      (false, linuxStop { device_path := "/dev/video0", device_name := none, stream := some () }) ∧
    macSetDevice macCamEx [] (fun _ => some 7) { id := "camZ", name := "Z" } =
      (false, macCamEx) :=
  c1_unresolvable_target [] _ _ macCamEx [] (fun _ => some 7) _
    (by decide) rfl (by decide) rfl

/-- C2 counterexample: on the Windows backend two posts with no
intervening wait both stay queued (two pending samples, nothing
released), and the next wait observes the first post, not the final
one. -/
theorem c2_counterexample :
    (winWaitSample (chanSend (chanSend [] (some 0)) (some 1))).1 = some 0 ∧
    (some 0 : Option Nat) ≠ some 1 ∧
    (chanSend (chanSend [] (some 0)) (some 1)).length = 2 := by
  refine ⟨rfl, by decide, rfl⟩

/-- C2 (amended): the Windows sample channel is an unbounded FIFO: a
sequence of posts with no intervening wait leaves every posted sample
pending (pending count = number of posts, none released), and the next
wait observes the earliest post of the sequence. -/
theorem c2_fifo_queue (ps : List (Option Nat)) :
    postAll ps = ps ∧
    (winWaitSample (postAll ps)).1 = ps.head?.join ∧
    (postAll ps).length = ps.length := by
  have h : postAll ps = ps := by
    simpa using foldl_chanSend ps []
  refine ⟨h, ?_, by rw [h]⟩
  rw [h]
  cases ps with
  | nil => rfl
  | cons p ps => rfl

/-- C2 witness: the FIFO behavior at a concrete post sequence. -/
theorem c2_witness :
    postAll [some 5, none, some 6] = [some 5, none, some 6] ∧
    (winWaitSample (postAll [some 5, none, some 6])).1 =
      ([some 5, none, some 6] : List (Option Nat)).head?.join ∧
    (postAll [some 5, none, some 6]).length =
      ([some 5, none, some 6] : List (Option Nat)).length :=
  c2_fifo_queue [some 5, none, some 6]

/-- C3 counterexample: on the Windows backend a wait that begins before
any post does not block indefinitely: `recv_timeout(3 s)` elapses with
nothing queued and the wait returns `none` although no post ever
happened — refuting both the no-timeout contract and the statement
that wait never returns before some post. -/
theorem c3_counterexample :
    (winWaitSample []).1 = none ∧ winRecvTimeout [] = (none, []) := by
  exact ⟨rfl, rfl⟩

/-- C3 (amended): the macOS slot wait (modelled from the spec) blocks
until the first post and then takes exactly that post's value, leaving
the slot empty; the Windows wait instead carries a 3-second timeout:
if the first post arrives in time the result equals that post's value,
but with no post the wait returns `none` once the timeout elapses. -/
theorem c3_first_post (p : Nat) :
    specSlotTake ((specSlotPost none (some p)).1) = (some p, none) ∧
    (winWaitSample (chanSend [] (some p))).1 = some p ∧
    (winWaitSample []).1 = none := by
  exact ⟨rfl, rfl, rfl⟩

/-- C3 witness: the amended behavior at a concrete sample. -/
theorem c3_witness :
    specSlotTake ((specSlotPost none (some 3)).1) = (some 3, none) ∧
    (winWaitSample (chanSend [] (some 3))).1 = some 3 ∧
    (winWaitSample []).1 = none :=
  c3_first_post 3

/-- C4: evaluation at the failing input.  An idle Linux controller
(stream absent) switched to a resolvable different device comes back
with the stream created — set_device calls start unconditionally, so
the new session is running although the controller was idle before the
switch; the Windows backend likewise always calls start after a
successful switch. -/
theorem c4_failing_input_eval :
    ({ device_path := "/dev/video0", device_name := none,
       stream := none : LinuxCamera }).stream = none ∧
    linuxSetDevice [{ path := "/dev/video1", name := some "Cam 1" }]
        { device_path := "/dev/video0", device_name := none, stream := none }
        { id := "/dev/video1", name := "Cam 1" } =
      (true, { device_path := "/dev/video1", device_name := some "Cam 1",
               stream := some () }) ∧
    winSetDevice [{ id := "dev1", name := "Cam 1" }]
        { deviceId := "dev0", sampleQueue := [], previewing := false }
        { id := "dev1", name := "Cam 1" } =
      (true, { deviceId := "dev1", sampleQueue := [], previewing := true }) := by
  refine ⟨rfl, by decide, by decide⟩

/-- C5: evaluation at the failing input.  With an empty enumeration the
Linux backend panics (`unwrap` on `None`) and the Windows backend hits
`todo!()` — neither reports a retrievable `NoDeviceAvailable` error;
only the macOS backend returns `none` to its caller. -/
theorem c5_failing_input_eval :
    linuxNewDefaultDevice [] = .error "called Option.unwrap on a None value" ∧
    winNewDefaultDevice [] = .error "not yet implemented" ∧
    macNewDefaultDevice none (fun _ => some 0) = none := by
  exact ⟨rfl, rfl, rfl⟩

/-- C6: evaluation at the failing input.  A raw sample whose fourcc is
not RGB3/YUYV/MJPG (here GREY) makes the conversion — and hence
`wait_for_frame` — panic with "invalid buffer pixelformat" instead of
reporting a recoverable per-frame `UnsupportedPixelFormat` error. -/
theorem c6_failing_input_eval :
    convertFrame (fun _ => none) "GREY" [0, 0, 0, 0] 2 1 =
      .panicked "invalid buffer pixelformat" ∧
    linuxWaitForFrame { width := 2, height := 1, fourcc := "GREY" } (some ())
        (some [0, 0, 0, 0]) (fun _ => none) =
      .panicked "invalid buffer pixelformat" := by
  exact ⟨rfl, rfl⟩

/-- C7 counterexample: the RGB3 branch of the Linux conversion copies
the source buffer unchanged — a 2 by 1 RGB3 sample of 6 bytes (3 bytes
per pixel) is returned as-is, not as `4 * width * height` bytes of
32-bit pixels. -/
theorem c7_counterexample :
    convertFrame (fun _ => none) "RGB3" [1, 2, 3, 4, 5, 6] 2 1 =
      .ok [1, 2, 3, 4, 5, 6] ∧
    ([1, 2, 3, 4, 5, 6] : List Nat).length ≠ 4 * (2 * 1) := by
  refine ⟨rfl, by decide⟩

/-- C7 (amended): the YUYV path is deterministic and yields exactly
`width * height` 32-bit pixels (`4 * width * height` bytes); the RGB3
path instead copies the source bytes unchanged, and the macOS
non-planar locked view spans `stride * height` bytes, so row padding
is retained rather than stripped. -/
theorem c7_yuyv_canonical_size (buf : List Nat) (w h stride rows : Nat)
    (hlen : buf.length = 2 * (w * h)) :
    convertFrame (fun _ => none) "YUYV" buf w h = .ok (yuyv_to_rgb32 buf w h) ∧
    (yuyv_to_rgb32 buf w h).length = 4 * (w * h) ∧
    macPixelsDataLen false [] stride rows = stride * rows := by
  refine ⟨?_, ?_, rfl⟩
  · simp [convertFrame, hlen]
  · exact yuyvBytes_length buf (w * h)

/-- C7 witness: the amended behavior at a concrete 2 by 1 YUYV sample. -/
theorem c7_witness :
    convertFrame (fun _ => none) "YUYV" [16, 128, 16, 128] 2 1 =
      .ok (yuyv_to_rgb32 [16, 128, 16, 128] 2 1) ∧
    (yuyv_to_rgb32 [16, 128, 16, 128] 2 1).length = 4 * (2 * 1) ∧
    macPixelsDataLen false [] 12 2 = 12 * 2 :=
  c7_yuyv_canonical_size [16, 128, 16, 128] 2 1 12 2 (by decide)

/-- C8 counterexample: calling the Linux `wait_for_frame` while the
controller is idle (stream absent) panics on `unwrap` of the `None`
stream — it crashes instead of quietly blocking. -/
theorem c8_counterexample :
    linuxWaitForFrame { width := 640, height := 480, fourcc := "YUYV" } none
        none (fun _ => none) =
      .panicked "called Option.unwrap on a None value" := rfl

/-- C8 (amended): wait_for_frame while idle panics on the Linux backend
(unwrap of the absent stream, for any format and any delivery state);
on the Windows backend it blocks up to its 3-second timeout and then
returns `none` with the (empty) queue intact — no crash and no state
corruption. -/
theorem c8_wait_while_idle (fmt : LinuxFormat) (next : Option (List Nat))
    (mjpg : List Nat → Option (List Nat)) :
    linuxWaitForFrame fmt none next mjpg =
      .panicked "called Option.unwrap on a None value" ∧
    winWaitSample [] = (none, []) := by
  exact ⟨rfl, rfl⟩

/-- C8 witness: the amended behavior at a concrete format. -/
theorem c8_witness :
    linuxWaitForFrame { width := 640, height := 480, fourcc := "MJPG" } none
        (some [1, 2]) (fun _ => none) =
      .panicked "called Option.unwrap on a None value" ∧
    winWaitSample [] = (none, []) :=
  c8_wait_while_idle { width := 640, height := 480, fourcc := "MJPG" }
    (some [1, 2]) (fun _ => none)

/-- C9 counterexample: the Linux word view on an aligned 5-byte buffer
raises no assertion — it silently returns one word covering only 4 of
the 5 bytes, so a length that is not a multiple of 4 neither fails fast
nor yields a word slice covering the same bytes as the byte slice. -/
theorem c9_counterexample :
    linuxDataU32 0 5 = .words 1 ∧
    linuxDataU32 0 5 ≠ .assertFailed ∧
    4 * 1 ≠ 5 := by
  decide

/-- C9 (amended): the Windows (and macOS) word view debug-asserts that
the `align_to` prefix and suffix are empty, so whenever it returns a
word slice that slice covers exactly the bytes of the byte slice, and
the Linux view agrees on it; the Linux view itself never asserts and
silently drops prefix and suffix bytes when the buffer is misaligned
or its length is not a multiple of 4. -/
theorem c9_word_view (off n m : Nat)
    (hm : winDataU32 off n = .words m) :
    4 * m = n ∧ linuxDataU32 off n = .words m := by
  unfold winDataU32 at hm
  split at hm
  · rename_i hcond
    obtain ⟨hp, hs⟩ := hcond
    cases hm
    unfold linuxDataU32
    unfold alignParts at hp hs ⊢
    simp only at hp hs ⊢
    constructor
    · omega
    · trivial
  · cases hm

/-- C9 witness: the amended behavior at an aligned 8-byte buffer. -/
theorem c9_witness :
    4 * 2 = 8 ∧ linuxDataU32 0 8 = .words 2 :=
  c9_word_view 0 8 2 (by decide)

end Kamera
